import Mathlib

/-
Verification development for the Mobills-Web personal-finance core.

Shallow embedding conventions:
- JavaScript numbers are modeled as exact rationals (ℚ). Where the source
  can divide by zero, the result is modeled by `JVal`, which carries the
  IEEE-754 non-finite outcomes (+Infinity, -Infinity, NaN) explicitly.
- JS `Date` values are modeled by `DateT` (year, month 1-12, day 1-based,
  time-of-day in milliseconds), compared lexicographically, which agrees
  with timestamp order on calendar-valid dates. date-fns `startOfMonth` /
  `endOfMonth` are modeled over the Gregorian calendar. The wall clock
  `new Date()` is passed as an explicit `now` parameter.
- JS `Array.prototype.sort` (stable since ES2019) is modeled by the stable
  insertion sort `sortByStable`.
- `Map` iteration order (insertion order) is modeled by association lists
  built in insertion order.
- String operations (`split(' ')`, `includes`, `startsWith`, the
  normalization pipeline) are implemented over character lists. The
  `normalize('NFD')` + combining-mark strip of the source is embedded as an
  explicit accent-folding table covering the Latin letters appearing in the
  repository's rule catalog and data.
-/

namespace Mobills

/-- Calendar timestamp: year, month (1-12), day (1-based), time-of-day in
milliseconds. Ordered lexicographically, which matches JS `Date` timestamp
order for calendar-valid dates. -/
structure DateT where
  year : Nat
  month : Nat
  day : Nat
  tod : Nat
deriving DecidableEq, Repr

/-- JS `a <= b` on two Date timestamps. -/
def dateLe (a b : DateT) : Bool :=
  decide (a.year < b.year ∨ (a.year = b.year ∧ (a.month < b.month ∨ (a.month = b.month ∧
    (a.day < b.day ∨ (a.day = b.day ∧ a.tod ≤ b.tod))))))

/-- JS `a < b` on two Date timestamps. -/
def dateLt (a b : DateT) : Bool :=
  decide (a.year < b.year ∨ (a.year = b.year ∧ (a.month < b.month ∨ (a.month = b.month ∧
    (a.day < b.day ∨ (a.day = b.day ∧ a.tod < b.tod))))))

theorem dateLt_then_not_le {a b : DateT} (h : dateLt a b = true) : dateLe b a = false := by
  simp only [dateLt, decide_eq_true_eq] at h
  simp only [dateLe, decide_eq_false_iff_not]
  omega

/-- date-fns `startOfMonth`. -/
def startOfMonth (d : DateT) : DateT := ⟨d.year, d.month, 1, 0⟩

def isLeapYear (y : Nat) : Bool :=
  y % 4 == 0 && (y % 100 != 0 || y % 400 == 0)

/-- Days in a Gregorian month; `endOfMonth(now).getDate()` in the source. -/
def daysInMonth (y m : Nat) : Nat :=
  if m == 2 then (if isLeapYear y then 29 else 28)
  else if m == 4 || m == 6 || m == 9 || m == 11 then 30
  else 31

/-- date-fns `endOfMonth`: last millisecond of the month. -/
def endOfMonthD (d : DateT) : DateT :=
  ⟨d.year, d.month, daysInMonth d.year d.month, 86399999⟩

/-- A JavaScript number as the analytics code can produce it: a finite
rational, a signed infinity, or NaN. -/
inductive JVal where
  | num (q : ℚ)
  | inf
  | ninf
  | nan
deriving DecidableEq, Repr

/-- JS division `a / b` of two finite numbers (IEEE-754 semantics at 0). -/
def jdiv (a b : ℚ) : JVal :=
  if b = 0 then (if 0 < a then .inf else if a < 0 then .ninf else .nan)
  else .num (a / b)

/-- JS multiplication `v * c` by a finite constant. -/
def jmulC (c : ℚ) (v : JVal) : JVal :=
  match v with
  | .num q => .num (q * c)
  | .inf => if 0 < c then .inf else if c < 0 then .ninf else .nan
  | .ninf => if 0 < c then .ninf else if c < 0 then .inf else .nan
  | .nan => .nan

/-- JS division `v / c` by a finite constant. -/
def jdivC (v : JVal) (c : ℚ) : JVal :=
  match v with
  | .num q => jdiv q c
  | .inf => if c < 0 then .ninf else .inf
  | .ninf => if c < 0 then .inf else .ninf
  | .nan => .nan

/-- JS addition on possibly non-finite values. -/
def jadd (v w : JVal) : JVal :=
  match v, w with
  | .num a, .num b => .num (a + b)
  | .nan, _ => .nan
  | _, .nan => .nan
  | .inf, .ninf => .nan
  | .ninf, .inf => .nan
  | .inf, _ => .inf
  | _, .inf => .inf
  | .ninf, _ => .ninf
  | _, .ninf => .ninf

/-- JS `Math.min(c, v)` with a finite first argument. -/
def jmin (c : ℚ) (v : JVal) : JVal :=
  match v with
  | .num q => .num (min c q)
  | .inf => .num c
  | .ninf => .ninf
  | .nan => .nan

/-- JS `v <= c`: false when v is NaN or +Infinity, true when -Infinity. -/
def jle (v : JVal) (c : ℚ) : Bool :=
  match v with
  | .num q => decide (q ≤ c)
  | .inf => false
  | .ninf => true
  | .nan => false

/-- JS `Math.round` on a finite number: round half towards +Infinity. -/
def jsRound (q : ℚ) : ℤ := Int.floor (q + 1/2)

/-- JS `Math.round` lifted to possibly non-finite values. -/
def jroundJ (v : JVal) : JVal :=
  match v with
  | .num q => .num ((jsRound q : ℤ) : ℚ)
  | x => x

/-- Transaction.type in `types/financial.ts`. -/
inductive TxKind where
  | income
  | expense
deriving DecidableEq, Repr

/-- `Transaction` of `types/financial.ts` (tags default to `[]`). -/
structure Transaction where
  id : String
  description : String
  amount : ℚ
  type : TxKind
  category : String
  account : String
  date : DateT
  recurring : Bool
  tags : List String
deriving DecidableEq, Repr

/-- Account.type in `types/financial.ts`. -/
inductive AccType where
  | checking
  | savings
  | investment
deriving DecidableEq, Repr

/-- `Account` of `types/financial.ts`. -/
structure Account where
  id : String
  name : String
  bank : String
  type : AccType
  balance : ℚ
  color : String
  createdAt : DateT
deriving DecidableEq, Repr

inductive BudgetPeriod where
  | monthly
  | weekly
  | yearly
deriving DecidableEq, Repr

/-- `Budget` of `types/goals.ts`. -/
structure Budget where
  id : String
  category : String
  limit : ℚ
  spent : ℚ
  period : BudgetPeriod
  color : String
  alerts : Bool
deriving DecidableEq, Repr

inductive GoalCategory where
  | savings
  | investment
  | purchase
  | debt
  | emergency
deriving DecidableEq, Repr

/-- `FinancialGoal` of `types/goals.ts`. -/
structure FinancialGoal where
  id : String
  title : String
  description : Option String
  targetAmount : ℚ
  currentAmount : ℚ
  deadline : DateT
  category : GoalCategory
  color : String
  createdAt : DateT
  completed : Bool
deriving DecidableEq, Repr

/-- `Category` of `types/financial.ts`. -/
structure Category where
  id : String
  name : String
  type : TxKind
  color : String
  icon : String
deriving DecidableEq, Repr

/-- Insert `x` into `l` before the first element `y` with `lt x y`;
placing `x` after elements it ties with makes the derived sort stable. -/
def insertBy (lt : α → α → Bool) (x : α) : List α → List α
  | [] => [x]
  | y :: ys => if lt x y then x :: y :: ys else y :: insertBy lt x ys

/-- Stable insertion sort: the model of JS `Array.prototype.sort` with a
comparator inducing the strict order `lt` (ES2019 sort is stable). -/
def sortByStable (lt : α → α → Bool) (l : List α) : List α :=
  l.foldl (fun acc x => insertBy lt x acc) []

theorem mem_insertBy {lt : α → α → Bool} {x y : α} :
    ∀ {l : List α}, y ∈ insertBy lt x l ↔ y = x ∨ y ∈ l := by
  intro l
  induction l with
  | nil => simp [insertBy]
  | cons z zs ih =>
    simp only [insertBy]
    split
    · simp [List.mem_cons]
    · simp only [List.mem_cons, ih]
      tauto

theorem mem_sortByStable_aux {lt : α → α → Bool} {y : α} :
    ∀ (l acc : List α), y ∈ l.foldl (fun acc x => insertBy lt x acc) acc ↔ y ∈ acc ∨ y ∈ l := by
  intro l
  induction l with
  | nil => simp
  | cons z zs ih =>
    intro acc
    simp only [List.foldl_cons, ih, mem_insertBy, List.mem_cons]
    tauto

theorem mem_sortByStable {lt : α → α → Bool} {y : α} {l : List α} :
    y ∈ sortByStable lt l ↔ y ∈ l := by
  simp [sortByStable, mem_sortByStable_aux]

/-- JS `text.split(sep)` for a single-character separator, over character
lists; empty segments are kept and `''.split(' ')` is `['']`. -/
def splitChars (sep : Char) : List Char → List (List Char)
  | [] => [[]]
  | c :: cs =>
    let r := splitChars sep cs
    if c = sep then [] :: r
    else
      match r with
      | t :: ts => (c :: t) :: ts
      | [] => [[c]]

/-- JS `text.split(' ')`. -/
def jsSplitSpace (s : String) : List String :=
  (splitChars ' ' s.toList).map (fun cs => String.mk cs)

/-- Insertion-order deduplication: the model of `new Set([...])` read back in
iteration order. -/
def dedupKeepFirst [DecidableEq α] (l : List α) : List α :=
  l.foldl (fun acc w => if w ∈ acc then acc else acc ++ [w]) []

/-- `SmartCategoryManager.calculateSimilarity` (smartCategories.ts 513-521):
`words1.filter(w => words2.includes(w)).length / new Set([...words1, ...words2]).size`.
The union is never empty (split always returns at least one segment), so the
JS division never hits 0/0; Lean division agrees on every reachable input. -/
def calculateSimilarity (text1 text2 : String) : ℚ :=
  let words1 := jsSplitSpace text1
  let words2 := jsSplitSpace text2
  let inter := words1.filter (fun w => words2.contains w)
  let union := dedupKeepFirst (words1 ++ words2)
  (inter.length : ℚ) / (union.length : ℚ)

/-- JS `toLowerCase` restricted to ASCII letters (the only uppercase letters
the repository's data and catalog exercise). -/
def toLowerChar (c : Char) : Char :=
  if 'A' ≤ c ∧ c ≤ 'Z' then Char.ofNat (c.toNat + 32) else c

/-- The effect of `normalize('NFD').replace(/[̀-ͯ]/g, '')` on the
Latin accented letters appearing in the rule catalog and data: each folds to
its base letter. -/
def foldAccent (c : Char) : Char :=
  if c = 'á' ∨ c = 'à' ∨ c = 'â' ∨ c = 'ã' ∨ c = 'ä' then 'a'
  else if c = 'é' ∨ c = 'è' ∨ c = 'ê' ∨ c = 'ë' then 'e'
  else if c = 'í' ∨ c = 'ì' ∨ c = 'î' ∨ c = 'ï' then 'i'
  else if c = 'ó' ∨ c = 'ò' ∨ c = 'ô' ∨ c = 'õ' ∨ c = 'ö' then 'o'
  else if c = 'ú' ∨ c = 'ù' ∨ c = 'û' ∨ c = 'ü' then 'u'
  else if c = 'ç' then 'c'
  else c

/-- Characters kept by the replacement `/[^a-z0-9\s]/g -> ' '`. Other
whitespace characters are sent to a space here; the source keeps them and the
following `/\s+/g -> ' '` collapse produces the same final string. -/
def isKeptChar (c : Char) : Bool :=
  decide (('a' ≤ c ∧ c ≤ 'z') ∨ ('0' ≤ c ∧ c ≤ '9') ∨ c = ' ')

/-- `/\s+/g -> ' '`: collapse runs of spaces. -/
def collapseSpaces : List Char → List Char
  | [] => []
  | c :: cs =>
    match cs with
    | d :: _ => if c = ' ' ∧ d = ' ' then collapseSpaces cs else c :: collapseSpaces cs
    | [] => [c]

/-- `.trim()`: strip leading and trailing spaces. -/
def trimSpaces (l : List Char) : List Char :=
  ((l.dropWhile (fun c => c = ' ')).reverse.dropWhile (fun c => c = ' ')).reverse

/-- `SmartCategoryManager.normalizeText` (smartCategories.ts 524-532):
lowercase, strip accents, replace special characters by spaces, collapse
whitespace, trim. -/
def normalizeText (s : String) : String :=
  String.mk (trimSpaces (collapseSpaces
    (s.toList.map (fun c =>
      let c := foldAccent (toLowerChar c)
      if isKeptChar c then c else ' '))))

/-- JS `hay.includes(needle)` on character lists. -/
def listHasInfix (hay needle : List Char) : Bool :=
  if needle.isPrefixOf hay then true
  else
    match hay with
    | [] => false
    | _ :: t => listHasInfix t needle

/-- JS `s.includes(sub)`. -/
def strIncludes (s sub : String) : Bool :=
  listHasInfix s.toList sub.toList

/-- JS `s.startsWith(p)`. -/
def strStartsWith (s p : String) : Bool :=
  p.toList.isPrefixOf s.toList

/-- Rule applicability, `CategoryRule.type` in smartCategories.ts. -/
inductive RuleType where
  | income
  | expense
  | both
deriving DecidableEq, Repr

/-- `CategoryRule` of smartCategories.ts. Regex patterns are carried as their
source strings; their `test` semantics enter the embedding as an explicit
`regexTest` parameter of the categorizer (none of the built-in rules has
patterns). -/
structure CategoryRule where
  id : String
  keywords : List String
  negativeKeywords : Option (List String)
  patterns : Option (List String)
  category : String
  confidence : ℚ
  type : RuleType
  priority : ℤ
deriving DecidableEq, Repr

/-- The built-in catalog `CATEGORY_RULES` (smartCategories.ts 44-206), in
source order. -/
def CATEGORY_RULES : List CategoryRule := [
  { id := "salary", keywords := ["salario", "salário", "ordenado", "vencimento", "pagamento", "folha"],
    negativeKeywords := none, patterns := none, category := "Salário", confidence := 95/100,
    type := .income, priority := 1 },
  { id := "freelance", keywords := ["freelance", "autônomo", "autonomo", "consulta", "projeto", "serviço prestado"],
    negativeKeywords := none, patterns := none, category := "Freelance", confidence := 9/10,
    type := .income, priority := 2 },
  { id := "investment", keywords := ["dividendo", "rendimento", "juros", "tesouro", "cdb", "fundo", "ações"],
    negativeKeywords := none, patterns := none, category := "Investimentos", confidence := 95/100,
    type := .income, priority := 1 },
  { id := "food-supermarket", keywords := ["mercado", "supermercado", "extra", "carrefour", "pão de açucar", "walmart"],
    negativeKeywords := none, patterns := none, category := "Alimentação", confidence := 95/100,
    type := .expense, priority := 1 },
  { id := "food-restaurant", keywords := ["restaurante", "ifood", "uber eats", "rappi", "delivery", "lanche"],
    negativeKeywords := none, patterns := none, category := "Alimentação", confidence := 9/10,
    type := .expense, priority := 2 },
  { id := "transport-fuel", keywords := ["posto", "gasolina", "alcool", "etanol", "diesel", "combustivel", "shell", "petrobras"],
    negativeKeywords := none, patterns := none, category := "Transporte", confidence := 95/100,
    type := .expense, priority := 1 },
  { id := "transport-public", keywords := ["metro", "trem", "ônibus", "onibus", "bilhete unico", "transporte publico"],
    negativeKeywords := none, patterns := none, category := "Transporte", confidence := 95/100,
    type := .expense, priority := 1 },
  { id := "transport-rideshare", keywords := ["uber", "99", "taxi", "cabify", "corrida"],
    negativeKeywords := none, patterns := none, category := "Transporte", confidence := 9/10,
    type := .expense, priority := 2 },
  { id := "housing-rent", keywords := ["aluguel", "condomínio", "condominio", "imovel"],
    negativeKeywords := none, patterns := none, category := "Moradia", confidence := 95/100,
    type := .expense, priority := 1 },
  { id := "housing-utilities", keywords := ["luz", "energia", "eletrica", "agua", "saneamento", "gas", "internet", "telefone", "celular"],
    negativeKeywords := none, patterns := none, category := "Moradia", confidence := 9/10,
    type := .expense, priority := 2 },
  { id := "health-medical", keywords := ["hospital", "clinica", "médico", "medico", "consulta", "exame", "laboratorio"],
    negativeKeywords := none, patterns := none, category := "Saúde", confidence := 95/100,
    type := .expense, priority := 1 },
  { id := "health-pharmacy", keywords := ["farmacia", "drogaria", "droga raia", "pacheco", "remedios", "medicamento"],
    negativeKeywords := none, patterns := none, category := "Saúde", confidence := 9/10,
    type := .expense, priority := 2 },
  { id := "entertainment-streaming", keywords := ["netflix", "spotify", "amazon prime", "disney", "youtube premium", "assinatura"],
    negativeKeywords := none, patterns := none, category := "Lazer", confidence := 95/100,
    type := .expense, priority := 1 },
  { id := "entertainment-venues", keywords := ["cinema", "teatro", "show", "ingresso", "evento", "bar", "balada"],
    negativeKeywords := none, patterns := none, category := "Lazer", confidence := 9/10,
    type := .expense, priority := 2 },
  { id := "shopping-clothing", keywords := ["roupa", "sapato", "calçado", "moda", "zara", "renner", "c&a", "riachuelo"],
    negativeKeywords := none, patterns := none, category := "Vestuário", confidence := 9/10,
    type := .expense, priority := 2 },
  { id := "shopping-electronics", keywords := ["magazine luiza", "americanas", "submarino", "amazon", "mercado livre", "eletronic"],
    negativeKeywords := none, patterns := none, category := "Eletrônicos", confidence := 8/10,
    type := .expense, priority := 3 },
  { id := "education", keywords := ["escola", "faculdade", "universidade", "curso", "mensalidade", "livro", "material escolar"],
    negativeKeywords := none, patterns := none, category := "Educação", confidence := 9/10,
    type := .expense, priority := 2 },
  { id := "financial-fees", keywords := ["tarifa", "anuidade", "taxa", "juros", "multa", "banco"],
    negativeKeywords := none, patterns := none, category := "Taxas Bancárias", confidence := 9/10,
    type := .expense, priority := 2 }
]

/-- Comparator `(a, b) => a.priority - b.priority`. -/
def ruleLt (a b : CategoryRule) : Bool :=
  decide (a.priority < b.priority)

/-- `SmartCategoryManager` instance state. -/
structure Manager where
  rules : List CategoryRule
  transactions : List Transaction
  categories : List Category
deriving Repr

/-- The constructor (smartCategories.ts 213-221):
`[...CATEGORY_RULES, ...customRules].sort((a, b) => a.priority - b.priority)`. -/
def mkManager (transactions : List Transaction) (categories : List Category)
    (customRules : List CategoryRule) : Manager :=
  { transactions := transactions, categories := categories,
    rules := sortByStable ruleLt (CATEGORY_RULES ++ customRules) }

/-- Result shape of `categorizeTransaction`. -/
structure CatResult where
  category : String
  confidence : ℚ
  reason : String
deriving DecidableEq, Repr

/-- `rule.type !== 'both' && rule.type !== transaction.type` means skip. -/
def ruleTypeMatches (rt : RuleType) (tt : TxKind) : Bool :=
  match rt, tt with
  | .both, _ => true
  | .income, .income => true
  | .expense, .expense => true
  | _, _ => false

/-- One iteration of the rule loop (smartCategories.ts 237-259): keyword hit
not cancelled by a negative keyword wins with the keyword reason; otherwise a
regex pattern hit wins with the pattern reason. -/
def ruleMatchReason (regexTest : String → String → Bool) (description : String)
    (rule : CategoryRule) : Option String :=
  let kwHit := rule.keywords.any (fun k => strIncludes description (normalizeText k))
  let negHit :=
    match rule.negativeKeywords with
    | some negs => negs.any (fun k => strIncludes description (normalizeText k))
    | none => false
  if kwHit && !negHit then some "palavra-chave correspondente"
  else
    match rule.patterns with
    | some ps => if ps.any (fun p => regexTest p description) then some "padrão correspondente" else none
    | none => none

/-- Insertion-order tally of a list of category names: the model of the
`Map<string, number>` counting loops. -/
def bumpCount : List (String × ℕ) → String → List (String × ℕ)
  | [], c => [(c, 1)]
  | (k, n) :: rest, c => if k = c then (k, n + 1) :: rest else (k, n) :: bumpCount rest c

def tallyCounts (cats : List String) : List (String × ℕ) :=
  cats.foldl bumpCount []

/-- Comparator `(a, b) => b[1] - a[1]`: descending by count. -/
def countDescLt (a b : String × ℕ) : Bool :=
  decide (b.2 < a.2)

/-- `categorizeByAmount` (smartCategories.ts 315-337). -/
def categorizeByAmount (tx : Transaction) : CatResult :=
  match tx.type with
  | .income =>
    if 3000 < tx.amount then ⟨"Salário", 6/10, "valor alto de receita"⟩
    else if 500 < tx.amount then ⟨"Freelance", 1/2, "valor médio de receita"⟩
    else ⟨"Outros", 3/10, "valor baixo de receita"⟩
  | .expense =>
    if 1000 < tx.amount then ⟨"Moradia", 4/10, "valor alto de despesa"⟩
    else if 200 < tx.amount then ⟨"Alimentação", 4/10, "valor médio de despesa"⟩
    else ⟨"Outros", 3/10, "valor baixo de despesa"⟩

/-- `mlCategorizeTransaction` (smartCategories.ts 275-312): most common
category among historical transactions of the same type with similarity
above 0.6, else the amount heuristic. -/
def mlCategorizeTransaction (mgr : Manager) (tx : Transaction) (description : String) : CatResult :=
  let similar := mgr.transactions.filter (fun t =>
    !(t.id == tx.id) && t.type == tx.type &&
      decide (3/5 < calculateSimilarity description (normalizeText t.description)))
  if 0 < similar.length then
    match sortByStable countDescLt (tallyCounts (similar.map (fun t => t.category))) with
    | (c, n) :: _ => ⟨c, (n : ℚ) / (similar.length : ℚ), "transações similares"⟩
    | [] => categorizeByAmount tx
  else categorizeByAmount tx

/-- The rule loop of `categorizeTransaction` (smartCategories.ts 232-268). -/
def categorizeGo (regexTest : String → String → Bool) (tx : Transaction)
    (description : String) : List CategoryRule → Option CatResult
  | [] => none
  | r :: rs =>
    if ruleTypeMatches r.type tx.type then
      match ruleMatchReason regexTest description r with
      | some reason => some ⟨r.category, r.confidence, reason⟩
      | none => categorizeGo regexTest tx description rs
    else categorizeGo regexTest tx description rs

/-- `SmartCategoryManager.categorizeTransaction` (smartCategories.ts 224-272). -/
def categorizeTransaction (regexTest : String → String → Bool) (mgr : Manager)
    (tx : Transaction) : CatResult :=
  let description := normalizeText tx.description
  match categorizeGo regexTest tx description mgr.rules with
  | some r => r
  | none => mlCategorizeTransaction mgr tx description

/-- `Omit<CategoryRule, 'id'>`, the argument of `addCustomRule`. -/
structure RuleData where
  keywords : List String
  negativeKeywords : Option (List String)
  patterns : Option (List String)
  category : String
  confidence : ℚ
  type : RuleType
  priority : ℤ
deriving DecidableEq, Repr

/-- The rule `addCustomRule` builds: its generated id is
`custom-(Date.now())-(random)`; the nondeterministic tail is the explicit
`suffix` parameter. -/
def mkCustomRule (suffix : String) (d : RuleData) : CategoryRule :=
  { id := "custom-" ++ suffix, keywords := d.keywords, negativeKeywords := d.negativeKeywords,
    patterns := d.patterns, category := d.category, confidence := d.confidence,
    type := d.type, priority := d.priority }

/-- `SmartCategoryManager.addCustomRule` (smartCategories.ts 550-558). -/
def addCustomRule (m : Manager) (suffix : String) (d : RuleData) : Manager :=
  { m with rules := sortByStable ruleLt (m.rules ++ [mkCustomRule suffix d]) }

def applyAdds (m : Manager) : List (String × RuleData) → Manager
  | [] => m
  | (s, d) :: rest => applyAdds (addCustomRule m s d) rest

/-- `SmartCategoryManager.exportRules` (smartCategories.ts 561-563):
`this.rules.filter(rule => rule.id.startsWith('custom-'))`. -/
def exportRules (m : Manager) : List CategoryRule :=
  m.rules.filter (fun r => strStartsWith r.id "custom-")

/-- `SmartCategoryManager.importRules` (smartCategories.ts 566-573). -/
def importRules (m : Manager) (rules : List CategoryRule) : Manager :=
  { m with
    rules := sortByStable ruleLt (m.rules.filter (fun r => !(strStartsWith r.id "custom-")) ++ rules) }

/-- `CategorySuggestion` of smartCategories.ts; the source formats `reason`
as "(count) de (total) transações similares usam esta categoria". -/
structure CategorySuggestion where
  originalCategory : String
  suggestedCategory : String
  reason : String
  confidence : ℚ
  transactions : List Transaction
deriving DecidableEq, Repr

/-- The body of the per-group loop of `getCategorySuggestions`
(smartCategories.ts 379-413): a suggestion is emitted for a group of at
least 3 members with more than one distinct category only when the most
frequent category strictly beats the runner-up. -/
def suggestionForGroup (group : List Transaction) : Option CategorySuggestion :=
  if 3 ≤ group.length then
    let categories := group.map (fun t => t.category)
    let uniqueCategories := dedupKeepFirst categories
    if 1 < uniqueCategories.length then
      match sortByStable countDescLt (tallyCounts categories) with
      | top :: second :: _ =>
        if second.2 < top.2 then
          let suggestedCategory := top.1
          let toChange := group.filter (fun t => !(t.category == suggestedCategory))
          match toChange with
          | t0 :: _ =>
            some ⟨t0.category, suggestedCategory,
              toString top.2 ++ " de " ++ toString group.length ++ " transações similares usam esta categoria",
              (top.2 : ℚ) / (group.length : ℚ), toChange⟩
          | [] => none
        else none
      | _ => none
    else none
  else none

/-- `groupSimilarTransactions` (smartCategories.ts 487-510): greedy
single-pass grouping; `processed` collects consumed transaction ids. -/
def groupSimilarGo (all : List Transaction) : List Transaction → List String → List (List Transaction)
  | [], _ => []
  | t :: rest, processed =>
    if processed.contains t.id then groupSimilarGo all rest processed
    else
      let sims := all.filter (fun u =>
        !(processed.contains u.id) && u.type == t.type &&
          decide (7/10 < calculateSimilarity (normalizeText t.description) (normalizeText u.description)))
      if 1 < sims.length then sims :: groupSimilarGo all rest (processed ++ sims.map (fun u => u.id))
      else groupSimilarGo all rest processed

def groupSimilarTransactions (all : List Transaction) : List (List Transaction) :=
  groupSimilarGo all all []

/-- Comparator `(a, b) => b.confidence - a.confidence`. -/
def confDescLt (a b : CategorySuggestion) : Bool :=
  decide (b.confidence < a.confidence)

/-- `SmartCategoryManager.getCategorySuggestions` (smartCategories.ts 373-416). -/
def getCategorySuggestions (mgr : Manager) : List CategorySuggestion :=
  sortByStable confDescLt ((groupSimilarTransactions mgr.transactions).filterMap suggestionForGroup)

/-- Budget status thresholds of `getBudgetAnalysis`. -/
inductive BStatus where
  | safe
  | warning
  | critical
  | exceeded
deriving DecidableEq, Repr

/-- `BudgetAnalysis` of the analytics engine. `utilizationPercentage` is a
`JVal` because the division by `budget.limit` is not guarded. -/
structure BudgetAnalysis where
  category : String
  budgeted : ℚ
  spent : ℚ
  remaining : ℚ
  utilizationPercentage : JVal
  status : BStatus
  projectedOverrun : Option ℚ
  daysRemaining : ℤ
  dailyBudget : ℚ
  averageDailySpending : ℚ
deriving DecidableEq, Repr

/-- `reduce((sum, t) => sum + t.amount, 0)`. -/
def sumAmounts (ts : List Transaction) : ℚ :=
  ts.foldl (fun s t => s + t.amount) 0

/-- One element of `FinancialAnalytics.getBudgetAnalysis` (analytics source
229-279), for the current moment `now`. The spent filter keeps expense
transactions of the budget's category with `monthStart <= date <= now`. -/
def budgetAnalysisOne (now : DateT) (ts : List Transaction) (b : Budget) : BudgetAnalysis :=
  let monthStart := startOfMonth now
  let dim := daysInMonth now.year now.month
  let daysPassed := now.day
  let daysRemaining : ℤ := (dim : ℤ) - (daysPassed : ℤ)
  let catTx := ts.filter (fun t =>
    t.type == TxKind.expense && t.category == b.category &&
      dateLe monthStart t.date && dateLe t.date now)
  let spent := sumAmounts catTx
  let remaining := b.limit - spent
  let utilizationPercentage := jmulC 100 (jdiv spent b.limit)
  let status :=
    if jle utilizationPercentage 60 then BStatus.safe
    else if jle utilizationPercentage 80 then BStatus.warning
    else if jle utilizationPercentage 100 then BStatus.critical
    else BStatus.exceeded
  let dailyBudget := b.limit / (dim : ℚ)
  let averageDailySpending := if 0 < daysPassed then spent / (daysPassed : ℚ) else 0
  let projectedOverrun :=
    if dailyBudget < averageDailySpending ∧ 0 < daysRemaining then
      some (averageDailySpending * (dim : ℚ) - b.limit)
    else none
  ⟨b.category, b.limit, spent, remaining, utilizationPercentage, status,
    projectedOverrun, daysRemaining, dailyBudget, averageDailySpending⟩

/-- `FinancialAnalytics.getBudgetAnalysis`. -/
def getBudgetAnalysis (now : DateT) (ts : List Transaction) (budgets : List Budget) :
    List BudgetAnalysis :=
  budgets.map (budgetAnalysisOne now ts)

/-- The current-month transaction filter of `getMonthlyAnalysis` for `i = 0`:
`t.date >= monthStart && t.date <= monthEnd`. -/
def monthTransactions (now : DateT) (ts : List Transaction) : List Transaction :=
  ts.filter (fun t => dateLe (startOfMonth now) t.date && dateLe t.date (endOfMonthD now))

def monthIncome (now : DateT) (ts : List Transaction) : ℚ :=
  sumAmounts ((monthTransactions now ts).filter (fun t => t.type == TxKind.income))

def monthExpenses (now : DateT) (ts : List Transaction) : ℚ :=
  sumAmounts ((monthTransactions now ts).filter (fun t => t.type == TxKind.expense))

/-- The `savingsRate` field of `getMonthlyAnalysis(1)[0]` (analytics source
159-181): `income > 0 ? (income - expenses) / income * 100 : 0`. This is the
only field of the monthly analysis `getFinancialScore` reads. -/
def monthlySavingsRate (now : DateT) (ts : List Transaction) : ℚ :=
  let income := monthIncome now ts
  let expenses := monthExpenses now ts
  if 0 < income then ((income - expenses) / income) * 100 else 0

/-- Savings sub-score: `Math.min(25, savingsRate / 20 * 25)`. The source
reads `monthlyAnalysis?.savingsRate || 0`; `getMonthlyAnalysis(1)` always
returns one entry and `|| 0` maps 0 to 0, so the guard is the identity. -/
def savingsScoreQ (now : DateT) (ts : List Transaction) : ℚ :=
  min 25 (monthlySavingsRate now ts / 20 * 25)

/-- Budget-compliance sub-score: fraction of budgets in safe or warning
status times 25, default 20 with no budgets. -/
def budgetScoreQ (now : DateT) (ts : List Transaction) (budgets : List Budget) : ℚ :=
  let analysis := getBudgetAnalysis now ts budgets
  if 0 < analysis.length then
    ((analysis.filter (fun b => b.status == BStatus.safe || b.status == BStatus.warning)).length : ℚ)
      / (analysis.length : ℚ) * 25
  else 20

/-- The `progress` field of `getGoalAnalysis`:
`(goal.currentAmount / goal.targetAmount) * 100`, unguarded division. This is
the only goal-analysis field `getFinancialScore` reads. -/
def goalProgressJ (g : FinancialGoal) : JVal :=
  jmulC 100 (jdiv g.currentAmount g.targetAmount)

/-- Goal-progress sub-score:
`reduce((sum, g) => sum + Math.min(100, g.progress), 0) / length / 100 * 25`,
default 20 with no goals. -/
def goalScoreJ (goals : List FinancialGoal) : JVal :=
  if 0 < goals.length then
    jmulC 25 (jdivC (jdivC (goals.foldl (fun s g => jadd s (jmin 100 (goalProgressJ g))) (JVal.num 0))
      (goals.length : ℚ)) 100)
  else JVal.num 20

/-- Diversification sub-score: `Math.min(25, new Set(types).size * 8)`. -/
def divScoreQ (accounts : List Account) : ℚ :=
  min 25 (((dedupKeepFirst (accounts.map (fun a => a.type))).length : ℚ) * 8)

/-- The breakdown record of `getFinancialScore`: each sub-score is
individually `Math.round`ed. -/
structure ScoreBreakdown where
  savingsRate : ℤ
  budgetCompliance : ℤ
  goalProgress : JVal
  diversification : ℤ
deriving DecidableEq, Repr

structure ScoreResult where
  score : JVal
  breakdown : ScoreBreakdown
deriving DecidableEq, Repr

/-- `FinancialAnalytics.getFinancialScore` (analytics source 423-465). -/
def getFinancialScore (now : DateT) (ts : List Transaction) (accounts : List Account)
    (budgets : List Budget) (goals : List FinancialGoal) : ScoreResult :=
  let savingsScore := savingsScoreQ now ts
  let budgetScore := budgetScoreQ now ts budgets
  let goalScore := goalScoreJ goals
  let diversificationScore := divScoreQ accounts
  let totalScore := jadd (jadd (jadd (JVal.num savingsScore) (JVal.num budgetScore)) goalScore)
    (JVal.num diversificationScore)
  { score := jroundJ totalScore,
    breakdown :=
      { savingsRate := jsRound savingsScore
        budgetCompliance := jsRound budgetScore
        goalProgress := jroundJ goalScore
        diversification := jsRound diversificationScore } }

/-- Comparator `(a, b) => b.date.getTime() - a.date.getTime()`. -/
def txDateDescLt (a b : Transaction) : Bool :=
  dateLt b.date a.date

/-- The `FinancialAnalytics` constructor runs
`transactions.sort((a, b) => b.date.getTime() - a.date.getTime())`:
`Array.prototype.sort` sorts in place and returns the same array, so after
construction the caller's transactions array holds this value. -/
def constructorSortsTransactions (ts : List Transaction) : List Transaction :=
  sortByStable txDateDescLt ts

/-- The state the balance-maintenance code operates on: the accounts and
transactions arrays held in React state. -/
structure CState where
  accounts : List Account
  transactions : List Transaction
deriving DecidableEq, Repr

/-- `updateAccountBalance` of FinancialContext.tsx (lines 133-145): adjust
every account whose name matches by the signed amount, negated on remove. -/
def ctxUpdateAccountBalance (accounts : List Account) (accountName : String) (amount : ℚ)
    (ty : TxKind) (isRemove : Bool) : List Account :=
  accounts.map (fun account =>
    if account.name == accountName then
      let change := if ty == TxKind.income then amount else -amount
      let change := if isRemove then -change else change
      { account with balance := account.balance + change }
    else account)

/-- `addTransaction` of FinancialContext.tsx (lines 147-161). -/
def ctxAddTransaction (s : CState) (tx : Transaction) : CState :=
  { transactions := s.transactions ++ [tx],
    accounts := ctxUpdateAccountBalance s.accounts tx.account tx.amount tx.type false }

/-- `deleteTransaction` of FinancialContext.tsx (lines 163-176): find the
transaction, reverse its signed amount on the referenced account, remove it. -/
def ctxDeleteTransaction (s : CState) (id : String) : CState :=
  match s.transactions.find? (fun t => t.id == id) with
  | some t =>
    { accounts := ctxUpdateAccountBalance s.accounts t.account t.amount t.type true,
      transactions := s.transactions.filter (fun u => !(u.id == id)) }
  | none => s

/-- `addTransaction` of hooks/useTransactions.ts combined with
`updateAccountBalance` of hooks/useAccounts.ts: the new transaction is
prepended and `onBalanceUpdate(accountId, signed amount)` adjusts the
account found by id. -/
def hookAddTransaction (s : CState) (tx : Transaction) (accountId : String) : CState :=
  { transactions := tx :: s.transactions,
    accounts := s.accounts.map (fun acc =>
      if acc.id == accountId then
        { acc with balance := acc.balance + (if tx.type == TxKind.income then tx.amount else -tx.amount) }
      else acc) }

/-- `deleteTransaction` of hooks/useTransactions.ts (lines 120-160): the
transaction is removed, but the computed balance reversal is never applied —
`onBalanceUpdate` is never called (the source comments that the account id
would be needed), so account balances are unchanged. -/
def hookDeleteTransaction (s : CState) (id : String) : CState :=
  match s.transactions.find? (fun t => t.id == id) with
  | some _ => { s with transactions := s.transactions.filter (fun u => !(u.id == id)) }
  | none => s

/-- Opening balance plus this signed sum is what the spec requires a cached
account balance to equal: income adds, expense subtracts, over every
remaining transaction referencing the account by name. -/
def signedSum (name : String) (ts : List Transaction) : ℚ :=
  ts.foldl (fun s t =>
    if t.account == name then (if t.type == TxKind.income then s + t.amount else s - t.amount)
    else s) 0

/-! Concrete instances used to evaluate the embedded code. -/

def now0 : DateT := ⟨2025, 6, 15, 0⟩

def acc0 : Account :=
  { id := "a1", name := "Conta", bank := "Nubank", type := .checking, balance := 100,
    color := "", createdAt := ⟨2025, 1, 1, 0⟩ }

def b0 : Budget :=
  { id := "b1", category := "Alimentação", limit := 0, spent := 0, period := .monthly,
    color := "", alerts := false }

def txFood : Transaction :=
  { id := "t1", description := "mercado", amount := 50, type := .expense,
    category := "Alimentação", account := "Conta", date := ⟨2025, 6, 10, 0⟩,
    recurring := false, tags := [] }

def txFut : Transaction :=
  { id := "tf", description := "mercado futuro", amount := 80, type := .expense,
    category := "Alimentação", account := "Conta", date := ⟨2025, 6, 20, 0⟩,
    recurring := false, tags := [] }

def bFood : Budget :=
  { id := "b2", category := "Alimentação", limit := 500, spent := 0, period := .monthly,
    color := "", alerts := false }

def txUber : Transaction :=
  { id := "tx1", description := "UBER EATS PEDIDO 123", amount := 459/10, type := .expense,
    category := "Outros", account := "Conta", date := ⟨2025, 6, 10, 0⟩,
    recurring := false, tags := [] }

def txInc100 : Transaction :=
  { id := "i1", description := "salario", amount := 100, type := .income,
    category := "Salário", account := "Conta", date := ⟨2025, 6, 1, 0⟩,
    recurring := false, tags := [] }

def txExp200 : Transaction :=
  { id := "e1", description := "aluguel", amount := 200, type := .expense,
    category := "Moradia", account := "Conta", date := ⟨2025, 6, 2, 0⟩,
    recurring := false, tags := [] }

/-- A caller-supplied custom rule whose id does not carry the generated
`custom-` shape. -/
def importedRule : CategoryRule :=
  { id := "my-imported-rule", keywords := ["pet"], negativeKeywords := none, patterns := none,
    category := "Pets", confidence := 1/2, type := .expense, priority := 0 }

def ruleData0 : RuleData :=
  { keywords := ["academia"], negativeKeywords := none, patterns := none,
    category := "Saúde", confidence := 85/100, type := .expense, priority := 2 }

def tJan1 : Transaction :=
  { id := "t1", description := "a", amount := 10, type := .expense, category := "X",
    account := "Conta", date := ⟨2025, 1, 1, 0⟩, recurring := false, tags := [] }

def tJan2 : Transaction :=
  { id := "t2", description := "b", amount := 20, type := .expense, category := "X",
    account := "Conta", date := ⟨2025, 1, 2, 0⟩, recurring := false, tags := [] }

def txInc : Transaction :=
  { id := "t1", description := "salario", amount := 50, type := .income,
    category := "Salário", account := "Conta", date := ⟨2025, 6, 5, 0⟩,
    recurring := false, tags := [] }

def txExp : Transaction :=
  { id := "t2", description := "mercado", amount := 30, type := .expense,
    category := "Alimentação", account := "Conta", date := ⟨2025, 6, 6, 0⟩,
    recurring := false, tags := [] }

/-- Context variant after adding the income and the expense of the spec's
balance scenario. -/
def ctxS2 : CState := ctxAddTransaction (ctxAddTransaction ⟨[acc0], []⟩ txInc) txExp

/-- Context variant after deleting the expense again. -/
def ctxS3 : CState := ctxDeleteTransaction ctxS2 "t2"

/-- Hook (Supabase) variant after the same additions. -/
def hookS2 : CState := hookAddTransaction (hookAddTransaction ⟨[acc0], []⟩ txInc "a1") txExp "a1"

/-- Hook (Supabase) variant after deleting the expense again. -/
def hookS3 : CState := hookDeleteTransaction hookS2 "t2"

def g1 : Transaction :=
  { id := "g1", description := "x", amount := 1, type := .expense, category := "A",
    account := "c", date := ⟨2025, 1, 1, 0⟩, recurring := false, tags := [] }

def g2 : Transaction := { g1 with id := "g2", category := "A" }

def g3 : Transaction := { g1 with id := "g3", category := "B" }

def g4 : Transaction := { g1 with id := "g4", category := "B" }

/-- The token-set Jaccard score as the spec words it: split on whitespace
into sets (the empty string has no tokens), |intersection| / |union|, defined
as 0 when both sets are empty. Stated for comparison with the code's
`calculateSimilarity`. -/
def specJaccard (a b : String) : ℚ :=
  let ta := (jsSplitSpace a).filter (fun w => !(w == "")) |>.toFinset
  let tb := (jsSplitSpace b).filter (fun w => !(w == "")) |>.toFinset
  if (ta ∪ tb).card = 0 then 0 else ((ta ∩ tb).card : ℚ) / ((ta ∪ tb).card : ℚ)

/-! Helper lemmas. -/

theorem txKind_beq_eq_decide (a b : TxKind) : (a == b) = decide (a = b) := rfl

theorem bstatus_beq_eq_decide (a b : BStatus) : (a == b) = decide (a = b) := rfl

theorem dedup_foldl_toFinset [DecidableEq α] :
    ∀ (l acc : List α),
      (l.foldl (fun a w => if w ∈ a then a else a ++ [w]) acc).toFinset = acc.toFinset ∪ l.toFinset := by
  intro l
  induction l with
  | nil => intro acc; simp
  | cons w ws ih =>
    intro acc
    simp only [List.foldl_cons]
    by_cases hw : w ∈ acc
    · rw [if_pos hw, ih, List.toFinset_cons, Finset.union_insert,
        Finset.insert_eq_self.mpr (Finset.mem_union_left _ (List.mem_toFinset.mpr hw))]
    · rw [if_neg hw, ih]
      ext x
      simp only [Finset.mem_union, List.mem_toFinset, List.mem_append, List.mem_cons,
        List.mem_singleton]
      tauto

theorem dedup_foldl_nodup [DecidableEq α] :
    ∀ (l acc : List α), acc.Nodup →
      (l.foldl (fun a w => if w ∈ a then a else a ++ [w]) acc).Nodup := by
  intro l
  induction l with
  | nil => intro acc h; simpa
  | cons w ws ih =>
    intro acc h
    simp only [List.foldl_cons]
    by_cases hw : w ∈ acc
    · rw [if_pos hw]; exact ih acc h
    · rw [if_neg hw]
      refine ih _ ?_
      rw [List.nodup_append]
      exact ⟨h, List.nodup_singleton w, by simpa [List.disjoint_singleton] using hw⟩

theorem dedupKeepFirst_toFinset [DecidableEq α] (l : List α) :
    (dedupKeepFirst l).toFinset = l.toFinset := by
  simp [dedupKeepFirst, dedup_foldl_toFinset]

theorem dedupKeepFirst_nodup [DecidableEq α] (l : List α) : (dedupKeepFirst l).Nodup :=
  dedup_foldl_nodup l [] List.nodup_nil

theorem dedupKeepFirst_length [DecidableEq α] (l : List α) :
    (dedupKeepFirst l).length = l.toFinset.card := by
  rw [← dedupKeepFirst_toFinset l]
  exact (List.toFinset_card_of_nodup (dedupKeepFirst_nodup l)).symm

theorem contains_eq_true_iff {l : List String} {x : String} :
    l.contains x = true ↔ x ∈ l := by
  simp

theorem filter_contains_length {w1 w2 : List String} (h1 : w1.Nodup) :
    (w1.filter (fun w => w2.contains w)).length = (w1.toFinset ∩ w2.toFinset).card := by
  have hn : (w1.filter (fun w => w2.contains w)).Nodup := h1.filter _
  rw [← List.toFinset_card_of_nodup hn]
  congr 1
  ext x
  simp [List.mem_filter, contains_eq_true_iff]

theorem similarity_nodup_form (a b : String) (h1 : (jsSplitSpace a).Nodup) :
    calculateSimilarity a b =
      (((jsSplitSpace a).toFinset ∩ (jsSplitSpace b).toFinset).card : ℚ) /
        (((jsSplitSpace a).toFinset ∪ (jsSplitSpace b).toFinset).card : ℚ) := by
  simp only [calculateSimilarity]
  rw [filter_contains_length h1, dedupKeepFirst_length, List.toFinset_append]

theorem splitChars_ne_nil (sep : Char) : ∀ l : List Char, splitChars sep l ≠ [] := by
  intro l
  induction l with
  | nil => simp [splitChars]
  | cons c cs ih =>
    simp only [splitChars]
    by_cases hc : c = sep
    · simp [hc]
    · rcases h : splitChars sep cs with _ | ⟨t, ts⟩ <;> simp [hc, h]

theorem jsSplitSpace_ne_nil (s : String) : jsSplitSpace s ≠ [] := by
  simp [jsSplitSpace, splitChars_ne_nil]

theorem sumAmounts_nonneg_aux :
    ∀ (ts : List Transaction) (init : ℚ), 0 ≤ init → (∀ t ∈ ts, 0 ≤ t.amount) →
      0 ≤ ts.foldl (fun s t => s + t.amount) init := by
  intro ts
  induction ts with
  | nil => intro init h _; simpa
  | cons t rest ih =>
    intro init h hts
    simp only [List.foldl_cons]
    exact ih _ (add_nonneg h (hts t (List.mem_cons_self t rest)))
      (fun u hu => hts u (List.mem_cons_of_mem t hu))

theorem sumAmounts_nonneg {ts : List Transaction} (h : ∀ t ∈ ts, 0 ≤ t.amount) :
    0 ≤ sumAmounts ts :=
  sumAmounts_nonneg_aux ts 0 le_rfl h

theorem calcSim_eval {t1 t2 : String} {m n : ℕ}
    (h1 : ((jsSplitSpace t1).filter (fun w => (jsSplitSpace t2).contains w)).length = m)
    (h2 : (dedupKeepFirst (jsSplitSpace t1 ++ jsSplitSpace t2)).length = n) :
    calculateSimilarity t1 t2 = (m : ℚ) / (n : ℚ) := by
  simp only [calculateSimilarity]
  rw [h1, h2]

/-! Claim theorems. -/

/-- C2 counterexample: the code splits on single spaces keeping empty
segments and intersects the first token list (with multiplicity) against the
second, so `similarity("", "")` is 1 (both split to the one-element list
containing the empty token), not the claimed 0, and
`similarity("a a", "a")` is 2, outside [0,1] and different from the
token-set Jaccard value 1. The spec-worded Jaccard gives 0 on two empty
strings, disagreeing with the code. -/
theorem C2_counterexample_empty_and_duplicates :
    calculateSimilarity "" "" = 1 ∧ calculateSimilarity "" "" ≠ 0 ∧
    specJaccard "" "" = 0 ∧ calculateSimilarity "" "" ≠ specJaccard "" "" ∧
    calculateSimilarity "a a" "a" = 2 ∧ ¬ calculateSimilarity "a a" "a" ≤ 1 := by
  have e1 : calculateSimilarity "" "" = 1 := by
    rw [calcSim_eval (m := 1) (n := 1) (by decide) (by decide)]
    norm_num
  have e3 : calculateSimilarity "a a" "a" = 2 := by
    rw [calcSim_eval (m := 2) (n := 1) (by decide) (by decide)]
    norm_num
  have ej : specJaccard "" "" = 0 := by decide
  refine ⟨e1, by rw [e1]; norm_num, ej, by rw [e1, ej]; norm_num, e3, by rw [e3]; norm_num⟩

/-- C2 amended: when neither split token list contains a duplicate token, the
score equals |intersection| / |union| of the token sets (the empty token
included: the empty string splits to `[""]`) and lies in [0,1]; but
`similarity("", "")` is 1, not 0. -/
theorem C2_similarity_jaccard_on_nodup_tokens (a b : String)
    (h1 : (jsSplitSpace a).Nodup) (h2 : (jsSplitSpace b).Nodup) :
    0 ≤ calculateSimilarity a b ∧ calculateSimilarity a b ≤ 1 ∧
    calculateSimilarity a b =
      (((jsSplitSpace a).toFinset ∩ (jsSplitSpace b).toFinset).card : ℚ) /
        (((jsSplitSpace a).toFinset ∪ (jsSplitSpace b).toFinset).card : ℚ) := by
  have hform := similarity_nodup_form a b h1
  refine ⟨?_, ?_, hform⟩
  · rw [hform]
    positivity
  · rw [hform]
    rcases Nat.eq_zero_or_pos ((jsSplitSpace a).toFinset ∪ (jsSplitSpace b).toFinset).card with h | h
    · rw [h]
      norm_num
    · rw [div_le_one (by exact_mod_cast h)]
      exact_mod_cast Finset.card_le_card Finset.inter_subset_union

/-- C2 witness: the amended statement evaluated at "uber eats" and "uber". -/
theorem C2_witness_uber_eats :
    0 ≤ calculateSimilarity "uber eats" "uber" ∧ calculateSimilarity "uber eats" "uber" ≤ 1 ∧
    calculateSimilarity "uber eats" "uber" =
      (((jsSplitSpace "uber eats").toFinset ∩ (jsSplitSpace "uber").toFinset).card : ℚ) /
        (((jsSplitSpace "uber eats").toFinset ∪ (jsSplitSpace "uber").toFinset).card : ℚ) :=
  C2_similarity_jaccard_on_nodup_tokens "uber eats" "uber" (by decide) (by decide)

/-- C3 counterexample: with a duplicated token the function is not symmetric
(`similarity("a a", "a") = 2` but `similarity("a", "a a") = 1`) and
self-similarity is not 1 (`similarity("a a", "a a") = 2`). -/
theorem C3_counterexample_duplicate_tokens :
    calculateSimilarity "a a" "a" = 2 ∧ calculateSimilarity "a" "a a" = 1 ∧
    calculateSimilarity "a a" "a" ≠ calculateSimilarity "a" "a a" ∧
    calculateSimilarity "a a" "a a" = 2 ∧ calculateSimilarity "a a" "a a" ≠ 1 := by
  have e1 : calculateSimilarity "a a" "a" = 2 := by
    rw [calcSim_eval (m := 2) (n := 1) (by decide) (by decide)]
    norm_num
  have e2 : calculateSimilarity "a" "a a" = 1 := by
    rw [calcSim_eval (m := 1) (n := 1) (by decide) (by decide)]
    norm_num
  have e3 : calculateSimilarity "a a" "a a" = 2 := by
    rw [calcSim_eval (m := 2) (n := 1) (by decide) (by decide)]
    norm_num
  refine ⟨e1, e2, by rw [e1, e2]; norm_num, e3, by rw [e3]; norm_num⟩

/-- C3 amended: restricted to strings whose space-split token lists are
duplicate-free (which every normalized description without repeated words
satisfies), the function is symmetric and self-similarity is 1. -/
theorem C3_symmetric_on_nodup_tokens (a b : String)
    (h1 : (jsSplitSpace a).Nodup) (h2 : (jsSplitSpace b).Nodup) :
    calculateSimilarity a b = calculateSimilarity b a ∧ calculateSimilarity a a = 1 := by
  constructor
  · rw [similarity_nodup_form a b h1, similarity_nodup_form b a h2, Finset.inter_comm,
      Finset.union_comm]
  · rw [similarity_nodup_form a a h1, Finset.inter_self, Finset.union_self]
    have hpos : 0 < (jsSplitSpace a).toFinset.card := by
      rcases List.exists_mem_of_ne_nil _ (jsSplitSpace_ne_nil a) with ⟨x, hx⟩
      exact Finset.card_pos.mpr ⟨x, List.mem_toFinset.mpr hx⟩
    exact div_self (Nat.cast_ne_zero.mpr (Nat.pos_iff_ne_zero.mp hpos))

/-- C3 witness: the amended statement evaluated at "posto shell" and
"uber eats". -/
theorem C3_witness_concrete :
    calculateSimilarity "posto shell" "uber eats" = calculateSimilarity "uber eats" "posto shell" ∧
    calculateSimilarity "posto shell" "posto shell" = 1 :=
  C3_symmetric_on_nodup_tokens "posto shell" "uber eats" (by decide) (by decide)

/-- C4: the `FinancialAnalytics` constructor sorts the caller's transactions
array in place (JS `Array.prototype.sort` mutates), so after construction the
caller's array [Jan 1 tx, Jan 2 tx] has been reordered to date-descending
[Jan 2 tx, Jan 1 tx], contradicting the read-only-snapshot discipline. -/
theorem C4_constructor_mutates_caller_order :
    constructorSortsTransactions [tJan1, tJan2] = [tJan2, tJan1] ∧
    constructorSortsTransactions [tJan1, tJan2] ≠ [tJan1, tJan2] := by
  refine ⟨rfl, ?_⟩
  intro h
  have h2 : (constructorSortsTransactions [tJan1, tJan2]).map (fun t : Transaction => t.id)
      = ["t1", "t2"] := by
    rw [h]
    decide
  exact absurd h2 (by decide)

theorem util_zero_denom {s : ℚ} (hs : 0 ≤ s) :
    (jmulC 100 (jdiv s 0) = JVal.nan ∨ jmulC 100 (jdiv s 0) = JVal.inf) ∧
    jmulC 100 (jdiv s 0) ≠ JVal.num 0 ∧
    (if jle (jmulC 100 (jdiv s 0)) 60 then BStatus.safe
     else if jle (jmulC 100 (jdiv s 0)) 80 then BStatus.warning
     else if jle (jmulC 100 (jdiv s 0)) 100 then BStatus.critical
     else BStatus.exceeded) = BStatus.exceeded := by
  rcases hs.eq_or_lt with heq | hlt
  · have hd : jdiv s 0 = JVal.nan := by simp [jdiv, ← heq]
    simp [hd, jmulC, jle]
  · have hd : jdiv s 0 = JVal.inf := by simp [jdiv, hlt]
    simp [hd, jmulC, jle]

/-- C1 counterexample: for the budget with limit 0 and no spending the
utilization percentage is NaN, and with 50 spent this month it is +Infinity;
in neither case is it the claimed 0, and the status classifies as exceeded. -/
theorem C1_counterexample_zero_limit :
    (getBudgetAnalysis now0 [] [b0]).map (fun r => r.utilizationPercentage) = [JVal.nan] ∧
    JVal.nan ≠ JVal.num 0 ∧
    (getBudgetAnalysis now0 [txFood] [b0]).map (fun r => r.utilizationPercentage) = [JVal.inf] ∧
    JVal.inf ≠ JVal.num 0 := by
  refine ⟨?_, by simp, ?_, by simp⟩
  · simp [getBudgetAnalysis, budgetAnalysisOne, sumAmounts, jdiv, jmulC, startOfMonth, b0, now0]
  · norm_num [getBudgetAnalysis, budgetAnalysisOne, sumAmounts, jdiv, jmulC, startOfMonth,
      txFood, b0, now0, dateLe]

/-- C1 amended: the division by `budget.limit` is not guarded. For a budget
with limit 0 (and nonnegative transaction amounts) the utilization percentage
is the non-finite NaN (when spent is 0) or +Infinity (when spent is
positive), never 0, and the status falls through every threshold to
exceeded. -/
theorem C1_amended_zero_limit_unguarded (now : DateT) (ts : List Transaction) (b : Budget)
    (hb : b.limit = 0) (hts : ∀ t ∈ ts, 0 ≤ t.amount) :
    ((budgetAnalysisOne now ts b).utilizationPercentage = JVal.nan ∨
      (budgetAnalysisOne now ts b).utilizationPercentage = JVal.inf) ∧
    (budgetAnalysisOne now ts b).utilizationPercentage ≠ JVal.num 0 ∧
    (budgetAnalysisOne now ts b).status = BStatus.exceeded := by
  have hutil : (budgetAnalysisOne now ts b).utilizationPercentage =
      jmulC 100 (jdiv (sumAmounts (ts.filter (fun t =>
        t.type == TxKind.expense && t.category == b.category &&
          dateLe (startOfMonth now) t.date && dateLe t.date now))) b.limit) := rfl
  have hstat : (budgetAnalysisOne now ts b).status =
      (if jle (jmulC 100 (jdiv (sumAmounts (ts.filter (fun t =>
            t.type == TxKind.expense && t.category == b.category &&
              dateLe (startOfMonth now) t.date && dateLe t.date now))) b.limit)) 60 then BStatus.safe
       else if jle (jmulC 100 (jdiv (sumAmounts (ts.filter (fun t =>
            t.type == TxKind.expense && t.category == b.category &&
              dateLe (startOfMonth now) t.date && dateLe t.date now))) b.limit)) 80 then BStatus.warning
       else if jle (jmulC 100 (jdiv (sumAmounts (ts.filter (fun t =>
            t.type == TxKind.expense && t.category == b.category &&
              dateLe (startOfMonth now) t.date && dateLe t.date now))) b.limit)) 100 then BStatus.critical
       else BStatus.exceeded) := rfl
  rw [hb] at hutil hstat
  have hs : 0 ≤ sumAmounts (ts.filter (fun t =>
      t.type == TxKind.expense && t.category == b.category &&
        dateLe (startOfMonth now) t.date && dateLe t.date now)) :=
    sumAmounts_nonneg (fun t ht => hts t (List.mem_filter.mp ht).1)
  obtain ⟨h1, h2, h3⟩ := util_zero_denom hs
  exact ⟨by rw [hutil]; exact h1, by rw [hutil]; exact h2, by rw [hstat]; exact h3⟩

/-- C1 witness: the amended statement evaluated at the zero-limit budget with
an empty transaction list. -/
theorem C1_witness_zero_limit :
    ((budgetAnalysisOne now0 [] b0).utilizationPercentage = JVal.nan ∨
      (budgetAnalysisOne now0 [] b0).utilizationPercentage = JVal.inf) ∧
    (budgetAnalysisOne now0 [] b0).utilizationPercentage ≠ JVal.num 0 ∧
    (budgetAnalysisOne now0 [] b0).status = BStatus.exceeded :=
  C1_amended_zero_limit_unguarded now0 [] b0 rfl (by simp)

/-- C10: the spent filter of the budget analysis requires
`t.date <= now`, so an expense dated in the current month but strictly after
the current moment contributes nothing: the whole budget analysis record is
unchanged by such a transaction. -/
theorem C10_future_dated_expense_excluded (now : DateT) (ts : List Transaction) (b : Budget)
    (tx : Transaction) (hty : tx.type = TxKind.expense) (hcat : tx.category = b.category)
    (hyear : tx.date.year = now.year) (hmonth : tx.date.month = now.month)
    (hfuture : dateLt now tx.date = true) :
    budgetAnalysisOne now (tx :: ts) b = budgetAnalysisOne now ts b := by
  have hp : (tx.type == TxKind.expense && tx.category == b.category &&
      dateLe (startOfMonth now) tx.date && dateLe tx.date now) = false := by
    simp [dateLt_then_not_le hfuture]
  simp [budgetAnalysisOne, List.filter_cons, hp]

/-- C10 witness: a future-dated expense (June 20, now June 15) in the
budget's category leaves the analysis unchanged. -/
theorem C10_witness_future_expense :
    budgetAnalysisOne now0 [txFut] bFood = budgetAnalysisOne now0 [] bFood :=
  C10_future_dated_expense_excluded now0 [] bFood txFut rfl rfl rfl rfl (by decide)

/-- C9: when the two most frequent categories of a similarity group are tied
(the first two entries of the count-sorted tally carry equal counts), the
per-group suggestion logic emits nothing. -/
theorem C9_tie_yields_no_suggestion (group : List Transaction) (p q : String × ℕ)
    (rest : List (String × ℕ))
    (hsort : sortByStable countDescLt (tallyCounts (group.map (fun t => t.category))) = p :: q :: rest)
    (htie : p.2 = q.2) :
    suggestionForGroup group = none := by
  simp only [suggestionForGroup]
  split
  · split
    · rw [hsort]
      simp [countDescLt, htie]
    · rfl
  · rfl

/-- C9 witness: a group of four with categories A, A, B, B (a 2-2 tie)
produces no suggestion. -/
theorem C9_witness_two_two_tie : suggestionForGroup [g1, g2, g3, g4] = none :=
  C9_tie_yields_no_suggestion [g1, g2, g3, g4] ("A", 2) ("B", 2) [] (by decide) rfl

theorem isPrefixOf_append_self : ∀ (l t : List Char), l.isPrefixOf (l ++ t) = true := by
  intro l t
  induction l with
  | nil => simp [List.isPrefixOf]
  | cons c cs ih => simp [List.isPrefixOf, ih]

theorem strStartsWith_custom (s : String) : strStartsWith ("custom-" ++ s) "custom-" = true := by
  have h : ("custom-" ++ s).toList = "custom-".toList ++ s.toList := by
    simp [String.toList]
  rw [strStartsWith, h]
  exact isPrefixOf_append_self _ _

theorem builtin_ids_not_custom : ∀ r ∈ CATEGORY_RULES, strStartsWith r.id "custom-" = false := by
  decide

theorem mem_rules_applyAdds (r : CategoryRule) :
    ∀ (adds : List (String × RuleData)) (m : Manager), r ∈ m.rules → r ∈ (applyAdds m adds).rules := by
  intro adds
  induction adds with
  | nil => intro m h; exact h
  | cons pd rest ih =>
    intro m h
    rcases pd with ⟨s, d⟩
    simp only [applyAdds]
    exact ih _ (mem_sortByStable.mpr (List.mem_append_left _ h))

theorem added_rule_mem :
    ∀ (adds : List (String × RuleData)) (m : Manager), ∀ p ∈ adds,
      mkCustomRule p.1 p.2 ∈ (applyAdds m adds).rules := by
  intro adds
  induction adds with
  | nil => intro m p hp; simp at hp
  | cons hd rest ih =>
    intro m p hp
    rcases hd with ⟨s, d⟩
    simp only [applyAdds]
    rcases List.mem_cons.mp hp with heq | hmem
    · subst heq
      exact mem_rules_applyAdds _ rest _
        (mem_sortByStable.mpr (List.mem_append_right _ (List.mem_singleton.mpr rfl)))
    · exact ih _ p hmem

/-- C7 amended: `exportRules` returns exactly the rules of the catalog whose
id starts with "custom-". Every rule added through `addCustomRule` is
exported (its generated id carries the `custom-` shape), no built-in rule is
ever exported, but a caller-supplied rule given at construction is exported
only if its own id happens to start with "custom-". -/
theorem C7_exports_custom_prefixed_rules (txs : List Transaction) (cats : List Category)
    (customRules : List CategoryRule) (adds : List (String × RuleData)) :
    (∀ r : CategoryRule,
      r ∈ exportRules (applyAdds (mkManager txs cats customRules) adds) ↔
        r ∈ (applyAdds (mkManager txs cats customRules) adds).rules ∧
          strStartsWith r.id "custom-" = true) ∧
    (∀ r ∈ CATEGORY_RULES, r ∉ exportRules (applyAdds (mkManager txs cats customRules) adds)) ∧
    (∀ p ∈ adds,
      mkCustomRule p.1 p.2 ∈ exportRules (applyAdds (mkManager txs cats customRules) adds)) := by
  refine ⟨?_, ?_, ?_⟩
  · intro r
    simp [exportRules, List.mem_filter]
  · intro r hr hmem
    have h2 := (List.mem_filter.mp hmem).2
    rw [builtin_ids_not_custom r hr] at h2
    exact Bool.false_ne_true h2
  · intro p hp
    rw [exportRules, List.mem_filter]
    exact ⟨added_rule_mem adds _ p hp, strStartsWith_custom p.1⟩

/-- C7 counterexample: a caller-added rule supplied at construction with id
"my-imported-rule" is in the catalog but `exportRules` returns the empty
list, so not every caller-added rule is exported. -/
theorem C7_counterexample_constructor_rule_lost :
    importedRule ∈ (mkManager [] [] [importedRule]).rules ∧
    exportRules (mkManager [] [] [importedRule]) = [] := by
  constructor
  · simp [mkManager, mem_sortByStable]
  · rfl

/-- C7 witness: a rule added through `addCustomRule` is exported. -/
theorem C7_witness_added_rule_exported :
    mkCustomRule "1700000000000-ab12cd34e" ruleData0 ∈
      exportRules (applyAdds (mkManager [] [] []) [("1700000000000-ab12cd34e", ruleData0)]) :=
  (C7_exports_custom_prefixed_rules [] [] [] [("1700000000000-ab12cd34e", ruleData0)]).2.2
    ("1700000000000-ab12cd34e", ruleData0) (by simp)

/-- C8: the transaction "UBER EATS PEDIDO 123" (expense, 45.90) against the
built-in catalog resolves to the dining rule's category "Alimentação" with
confidence 0.9 and the keyword-match reason, not to the rideshare rule whose
keyword "uber" also occurs; the regex tester is irrelevant since no built-in
rule has patterns. -/
theorem C8_uber_eats_resolves_to_dining (rt : String → String → Bool) :
    categorizeTransaction rt (mkManager [] [] []) txUber =
      ⟨"Alimentação", 9/10, "palavra-chave correspondente"⟩ := rfl

/-- C5: evaluating the spec's balance scenario (opening 100, add income 50
and expense 30, then delete the expense). The FinancialContext variant ends
at 150 = 100 + signed sum of the remaining transactions, as the invariant
requires. The Supabase hook variant removes the transaction but never calls
`onBalanceUpdate` in its `deleteTransaction` (the reversal it computes is
dead code), leaving the balance at 120 while the invariant demands 150. -/
theorem C5_hook_delete_skips_balance_reversal :
    (ctxS2.accounts.map (fun a => a.balance) = [120] ∧
      ctxS3.accounts.map (fun a => a.balance) = [150] ∧
      (100 : ℚ) + signedSum "Conta" ctxS3.transactions = 150) ∧
    (hookS2.accounts.map (fun a => a.balance) = [120] ∧
      hookS3.accounts.map (fun a => a.balance) = [120] ∧
      (100 : ℚ) + signedSum "Conta" hookS3.transactions = 150 ∧
      (120 : ℚ) ≠ 150) := by
  refine ⟨⟨?_, ?_, ?_⟩, ⟨?_, ?_, ?_, by norm_num⟩⟩
  · simp +decide [ctxS2, ctxAddTransaction, ctxUpdateAccountBalance, acc0, txInc, txExp]
    norm_num
  · simp +decide [ctxS3, ctxS2, ctxAddTransaction, ctxDeleteTransaction, ctxUpdateAccountBalance,
      acc0, txInc, txExp, List.find?, List.filter]
    norm_num
  · simp +decide [ctxS3, ctxS2, ctxAddTransaction, ctxDeleteTransaction, ctxUpdateAccountBalance,
      signedSum, acc0, txInc, txExp, List.find?, List.filter]
    norm_num
  · simp +decide [hookS2, hookAddTransaction, acc0, txInc, txExp]
    norm_num
  · simp +decide [hookS3, hookS2, hookAddTransaction, hookDeleteTransaction,
      acc0, txInc, txExp, List.find?, List.filter]
    norm_num
  · simp +decide [hookS3, hookS2, hookAddTransaction, hookDeleteTransaction, signedSum,
      acc0, txInc, txExp, List.find?, List.filter]
    norm_num

theorem goal_fold_bounds :
    ∀ (l : List FinancialGoal) (init : ℚ),
      (∀ g ∈ l, 0 < g.targetAmount ∧ 0 ≤ g.currentAmount) →
      ∃ S : ℚ,
        l.foldl (fun s g => jadd s (jmin 100 (goalProgressJ g))) (JVal.num init) = JVal.num S ∧
          init ≤ S ∧ S ≤ init + 100 * l.length := by
  intro l
  induction l with
  | nil => intro init _; exact ⟨init, rfl, le_rfl, by simp⟩
  | cons g rest ih =>
    intro init h
    obtain ⟨ht, hc⟩ := h g (List.mem_cons_self g rest)
    have hprog : goalProgressJ g = JVal.num (g.currentAmount / g.targetAmount * 100) := by
      simp [goalProgressJ, jdiv, ht.ne', jmulC]
    have hp0 : 0 ≤ g.currentAmount / g.targetAmount * 100 :=
      mul_nonneg (div_nonneg hc ht.le) (by norm_num)
    have hx0 : 0 ≤ min (100 : ℚ) (g.currentAmount / g.targetAmount * 100) :=
      le_min (by norm_num) hp0
    have hx100 : min (100 : ℚ) (g.currentAmount / g.targetAmount * 100) ≤ 100 := min_le_left _ _
    have hstep : jadd (JVal.num init) (jmin 100 (goalProgressJ g)) =
        JVal.num (init + min (100 : ℚ) (g.currentAmount / g.targetAmount * 100)) := by
      rw [hprog]
      simp [jmin, jadd]
    simp only [List.foldl_cons, hstep]
    obtain ⟨S, hS, h1, h2⟩ :=
      ih (init + min (100 : ℚ) (g.currentAmount / g.targetAmount * 100))
        (fun u hu => h u (List.mem_cons_of_mem g hu))
    refine ⟨S, hS, by linarith, ?_⟩
    simp only [List.length_cons]
    push_cast
    linarith

theorem goalScore_bounds (goals : List FinancialGoal)
    (hg : ∀ g ∈ goals, 0 < g.targetAmount ∧ 0 ≤ g.currentAmount) :
    ∃ gq : ℚ, goalScoreJ goals = JVal.num gq ∧ 0 ≤ gq ∧ gq ≤ 25 := by
  rw [goalScoreJ]
  by_cases hlen : 0 < goals.length
  · rw [if_pos hlen]
    obtain ⟨S, hS, h0, h100⟩ := goal_fold_bounds goals 0 hg
    have hlenQ : (0 : ℚ) < goals.length := by exact_mod_cast hlen
    have hjd1 : jdivC (JVal.num S) (goals.length : ℚ) = JVal.num (S / goals.length) := by
      simp [jdivC, jdiv, hlenQ.ne']
    have hjd2 : jdivC (JVal.num (S / goals.length)) 100 = JVal.num (S / goals.length / 100) := by
      norm_num [jdivC, jdiv]
    rw [hS, hjd1, hjd2]
    refine ⟨S / goals.length / 100 * 25, by simp [jmulC], ?_, ?_⟩
    · exact mul_nonneg (div_nonneg (div_nonneg h0 hlenQ.le) (by norm_num)) (by norm_num)
    · have hSle : S ≤ 100 * goals.length := by simpa using h100
      have h1 : S / goals.length ≤ 100 := by
        rw [div_le_iff hlenQ]
        linarith
      have h2 : S / goals.length / 100 ≤ 1 := by
        rw [div_le_one (by norm_num : (0 : ℚ) < 100)]
        linarith
      calc S / goals.length / 100 * 25 ≤ 1 * 25 :=
            mul_le_mul_of_nonneg_right h2 (by norm_num)
        _ = 25 := by norm_num
  · rw [if_neg hlen]
    exact ⟨20, rfl, by norm_num, by norm_num⟩

theorem budgetScore_bounds (now : DateT) (ts : List Transaction) (budgets : List Budget) :
    0 ≤ budgetScoreQ now ts budgets ∧ budgetScoreQ now ts budgets ≤ 25 := by
  rw [budgetScoreQ]
  by_cases h : 0 < (getBudgetAnalysis now ts budgets).length
  · rw [if_pos h]
    have hq : (0 : ℚ) < (getBudgetAnalysis now ts budgets).length := by exact_mod_cast h
    have hle : (((getBudgetAnalysis now ts budgets).filter
        (fun b => b.status == BStatus.safe || b.status == BStatus.warning)).length : ℚ) ≤
          ((getBudgetAnalysis now ts budgets).length : ℚ) := by
      exact_mod_cast List.length_filter_le _ _
    constructor
    · exact mul_nonneg (div_nonneg (by positivity) hq.le) (by norm_num)
    · have hr : (((getBudgetAnalysis now ts budgets).filter
          (fun b => b.status == BStatus.safe || b.status == BStatus.warning)).length : ℚ) /
            ((getBudgetAnalysis now ts budgets).length : ℚ) ≤ 1 := (div_le_one hq).mpr hle
      calc (((getBudgetAnalysis now ts budgets).filter
            (fun b => b.status == BStatus.safe || b.status == BStatus.warning)).length : ℚ) /
              ((getBudgetAnalysis now ts budgets).length : ℚ) * 25 ≤ 1 * 25 :=
            mul_le_mul_of_nonneg_right hr (by norm_num)
        _ = 25 := by norm_num
  · rw [if_neg h]
    norm_num

theorem divScore_bounds (accounts : List Account) :
    0 ≤ divScoreQ accounts ∧ divScoreQ accounts ≤ 25 := by
  rw [divScoreQ]
  exact ⟨le_min (by norm_num) (by positivity), min_le_left _ _⟩

/-- C6 counterexample: with a current month of income 100 and expenses 200
the savings rate is -100, so the savings sub-score is
min(25, -100/20*25) = -125 and the reported breakdown component is -125,
far outside [0, 25]. -/
theorem C6_counterexample_negative_savings :
    (getFinancialScore now0 [txInc100, txExp200] [acc0] [] []).breakdown.savingsRate = -125 ∧
    ¬ (0 : ℤ) ≤ (getFinancialScore now0 [txInc100, txExp200] [acc0] [] []).breakdown.savingsRate := by
  have h1 : monthlySavingsRate now0 [txInc100, txExp200] = -100 := by
    simp +decide [monthlySavingsRate, monthIncome, monthExpenses, monthTransactions, sumAmounts,
      startOfMonth, endOfMonthD, daysInMonth, isLeapYear, dateLe, now0, txInc100, txExp200,
      List.filter, txKind_beq_eq_decide]
    norm_num
  have h2 : savingsScoreQ now0 [txInc100, txExp200] = -125 := by
    rw [savingsScoreQ, h1, min_eq_right (by norm_num)]
    norm_num
  have h3 : (getFinancialScore now0 [txInc100, txExp200] [acc0] [] []).breakdown.savingsRate =
      jsRound (savingsScoreQ now0 [txInc100, txExp200]) := rfl
  have h4 : (getFinancialScore now0 [txInc100, txExp200] [acc0] [] []).breakdown.savingsRate = -125 := by
    rw [h3, h2]
    norm_num [jsRound, Int.floor_eq_iff]
  exact ⟨h4, by rw [h4]; norm_num⟩

/-- C6 amended: the budget-compliance, goal-progress (for goals with positive
targets and nonnegative current amounts) and diversification sub-scores lie
in [0, 25]; the savings sub-score is at most 25 but can be negative when the
month's expenses exceed its income; and the returned score is the sum of the
four unrounded sub-scores rounded to the nearest integer (while the
breakdown reports each sub-score individually rounded). -/
theorem C6_amended_score_components (now : DateT) (ts : List Transaction)
    (accounts : List Account) (budgets : List Budget) (goals : List FinancialGoal)
    (hg : ∀ g ∈ goals, 0 < g.targetAmount ∧ 0 ≤ g.currentAmount) :
    savingsScoreQ now ts ≤ 25 ∧
    (0 ≤ budgetScoreQ now ts budgets ∧ budgetScoreQ now ts budgets ≤ 25) ∧
    (0 ≤ divScoreQ accounts ∧ divScoreQ accounts ≤ 25) ∧
    ∃ gq : ℚ, goalScoreJ goals = JVal.num gq ∧ 0 ≤ gq ∧ gq ≤ 25 ∧
      (getFinancialScore now ts accounts budgets goals).score =
        JVal.num ((jsRound (savingsScoreQ now ts + budgetScoreQ now ts budgets + gq +
          divScoreQ accounts) : ℤ) : ℚ) := by
  obtain ⟨gq, hgq, hgq0, hgq25⟩ := goalScore_bounds goals hg
  refine ⟨min_le_left _ _, budgetScore_bounds now ts budgets, divScore_bounds accounts,
    gq, hgq, hgq0, hgq25, ?_⟩
  have hsc : (getFinancialScore now ts accounts budgets goals).score =
      jroundJ (jadd (jadd (jadd (JVal.num (savingsScoreQ now ts))
        (JVal.num (budgetScoreQ now ts budgets))) (goalScoreJ goals))
          (JVal.num (divScoreQ accounts))) := rfl
  rw [hsc, hgq]
  simp [jadd, jroundJ]

/-- C6 witness: the amended statement evaluated on the negative-savings month
with one account, no budgets and no goals. -/
theorem C6_witness_score_components :
    savingsScoreQ now0 [txInc100, txExp200] ≤ 25 ∧
    (0 ≤ budgetScoreQ now0 [txInc100, txExp200] [] ∧
      budgetScoreQ now0 [txInc100, txExp200] [] ≤ 25) ∧
    (0 ≤ divScoreQ [acc0] ∧ divScoreQ [acc0] ≤ 25) ∧
    ∃ gq : ℚ, goalScoreJ [] = JVal.num gq ∧ 0 ≤ gq ∧ gq ≤ 25 ∧
      (getFinancialScore now0 [txInc100, txExp200] [acc0] [] []).score =
        JVal.num ((jsRound (savingsScoreQ now0 [txInc100, txExp200] +
          budgetScoreQ now0 [txInc100, txExp200] [] + gq + divScoreQ [acc0]) : ℤ) : ℚ) :=
  C6_amended_score_components now0 [txInc100, txExp200] [acc0] [] [] (by simp)

end Mobills
